import Mathlib

/-!
Verification of the RUC error-context library (ktmlm/RUC).

The repository exposes one source file, `src/lib.rs`, holding the macro layer
(`d!`, `eg!`, `info!`, `omit!`, `info_omit!`, `pnk!`, `map!`, `ts!`, ...).
The `err` module it re-exports (`SimpleMsg`, `SimpleError`, the `RucError`
capability, the `.c()` context combinator and the renderer) is declared as
`pub mod err;` but its file is not part of the tree, so those parts are
modelled from the specification document; each such definition says so in
its doc comment.  Everything else is translated from `src/lib.rs`.
-/

set_option autoImplicit false

namespace RUC

/-- Modelled from the spec: the `SimpleMsg` struct of the missing `err.rs`.
Its constructor signature `SimpleMsg::new(err, file!(), line!(), column!())`
is visible in the `d!` macro of `src/lib.rs`; per spec section 3 a context
node carries a rendered message plus the Location (file, line, column)
captured at the call site. -/
structure SimpleMsg where
  err : String
  file : String
  line : Nat
  column : Nat
deriving DecidableEq

/-- Constructor mirroring `SimpleMsg::new(err, file, line, column)`. -/
def SimpleMsg.new (err file : String) (line column : Nat) : SimpleMsg :=
  ⟨err, file, line, column⟩

/-- Location of a captured message, as the (file, line, column) triple of
spec section 3. -/
def SimpleMsg.location (m : SimpleMsg) : String × Nat × Nat :=
  (m.file, m.line, m.column)

/-- Modelled from the spec: the error-chain value of the missing `err.rs`
(`SimpleError`, the built-in implementer of the `RucError` capability).
Spec section 3: a ContextNode is a message, a Location and an optional owned
cause; the chain is strictly linear and immutable. `base` is a node without
a cause (an originating error), `wrap` owns its cause. -/
inductive RucError where
  | base (msg : SimpleMsg)
  | wrap (msg : SimpleMsg) (cause : RucError)
deriving DecidableEq

/-- Modelled from the spec: `SimpleError::new(msg, cause)` of the missing
`err.rs`, whose call shape `SimpleError::new($crate::d!($msg), None)` is
visible in the `eg!` macro of `src/lib.rs`. -/
def SimpleError.new (msg : SimpleMsg) (cause : Option RucError) : RucError :=
  match cause with
  | none => RucError.base msg
  | some e => RucError.wrap msg e

/-- Head node's own captured message record. -/
def RucError.msg : RucError → SimpleMsg
  | RucError.base m => m
  | RucError.wrap m _ => m

/-- Modelled from the spec: `message()` of the `RucError` capability
(spec section 4.2) — this node's own message only. -/
def RucError.message (e : RucError) : String :=
  e.msg.err

/-- Modelled from the spec: `location()` of the `RucError` capability
(spec section 4.2) — this node's own location. -/
def RucError.location (e : RucError) : String × Nat × Nat :=
  e.msg.location

/-- Modelled from the spec: `cause()` of the `RucError` capability
(spec section 4.2) — the previous node, or none at the root. -/
def RucError.cause : RucError → Option RucError
  | RucError.base _ => none
  | RucError.wrap _ e => some e

/-- Number of nodes in a chain. -/
def RucError.length : RucError → Nat
  | RucError.base _ => 1
  | RucError.wrap _ e => e.length + 1

/-- The per-node messages of a chain, outermost (most recently attached)
first, root cause last. -/
def RucError.messages : RucError → List String
  | RucError.base m => [m.err]
  | RucError.wrap m e => m.err :: e.messages

/-- Modelled from the spec: the one-line rendering of a single node.  Spec
section 4.4 requires each line to contain that node's location and message;
section 9 leaves the exact delimiters an implementation choice, so one fixed
layout is chosen. -/
def renderLine (m : SimpleMsg) : String :=
  m.file ++ ":" ++ toString m.line ++ ":" ++ toString m.column ++ ": " ++ m.err

/-- Modelled from the spec: the Renderer of the missing `err.rs` (spec
section 4.4) — one line per node, from the outermost (most recently
attached) context down to the original root cause. -/
def RucError.renderLines : RucError → List String
  | RucError.base m => [renderLine m]
  | RucError.wrap m e => renderLine m :: e.renderLines

/-- Modelled from the spec: `render()` of the `RucError` capability — the
full multi-line report, obtained by joining the per-node lines. -/
def RucError.render (e : RucError) : String :=
  String.intercalate "\n" e.renderLines

/-- The `Result<T>` alias of the crate: `Result<T, Box<dyn RucError>>`. -/
abbrev Result (α : Type) : Type := Except RucError α

/-- Modelled from the spec: the context combinator `c` of the missing
`err.rs` (spec section 4.3): a success passes through unchanged; a failure
with chain `E` yields a failure whose head is the new node with `E`
installed as its cause. -/
def Result.c {α : Type} (r : Result α) (m : SimpleMsg) : Result α :=
  match r with
  | Except.ok v => Except.ok v
  | Except.error e => Except.error (RucError.wrap m e)

/-- The `d!($err)` macro arm of `src/lib.rs`: capture a message together
with the call site, `SimpleMsg::new($err, file!(), line!(), column!())`.
The call-site values are explicit parameters. -/
def d (err file : String) (line column : Nat) : SimpleMsg :=
  SimpleMsg.new err file line column

/-- The `d!()` macro arm of `src/lib.rs`: `d!("...")`, the default
placeholder message. -/
def dDefault (file : String) (line column : Nat) : SimpleMsg :=
  d "..." file line column

/-- A typed payload attached to a node, given by its two Rust debug
renderings: the compact single-line `{:?}` form and the pretty multi-line
`{:#?}` form. -/
structure Payload where
  debugCompact : String
  debugPretty : String
deriving DecidableEq

/-- The `d!(@$err)` macro arm of `src/lib.rs`:
`d!(format!("{:?}", $err))` — the compact debug form becomes the message. -/
def dPayload (p : Payload) (file : String) (line column : Nat) : SimpleMsg :=
  d p.debugCompact file line column

/-- The `eg!($msg)` macro arm of `src/lib.rs`:
`Box::new(SimpleError::new(d!($msg), None))` — an originating error, a
chain of length 1 with no cause. -/
def eg (msg file : String) (line column : Nat) : RucError :=
  SimpleError.new (d msg file line column) none

/-- The `eg!(@$msg)` macro arm of `src/lib.rs`:
`eg!(format!("{:#?}", $msg))` — the pretty debug form becomes the
originating message. -/
def egPayload (p : Payload) (file : String) (line column : Nat) : RucError :=
  eg p.debugPretty file line column

/-- The `eg!()` macro arm of `src/lib.rs`: `eg!("...")`. -/
def egDefault (file : String) (line column : Nat) : RucError :=
  eg "..." file line column

/-- Modelled from the spec: `print()` / `emit()` of the `RucError`
capability (spec section 4.2) — write `render()` to the diagnostic stream.
The effect is modelled as the list of report lines written. -/
def RucError.printLines (e : RucError) : List String :=
  e.renderLines

/-- The `info!($ops)` macro of `src/lib.rs`:
`$ops.c($crate::d!()).map_err(|e| e.print())`.  The pair returned is the
resulting value (a `Result<T, ()>`: `print` returns unit) together with the
lines written to the diagnostic stream. -/
def info {α : Type} (r : Result α) (file : String) (line column : Nat) :
    Except Unit α × List String :=
  match Result.c r (dDefault file line column) with
  | Except.ok v => (Except.ok v, [])
  | Except.error e => (Except.error (), e.printLines)

/-- The `omit!($ops)` macro of `src/lib.rs`: `let _ = $ops;` — the result
is dropped, nothing is rendered and nothing is written. -/
def omitOp {α ε : Type} (r : Except ε α) : Unit × List String :=
  match r with
  | Except.ok _ => ((), [])
  | Except.error _ => ((), [])

/-- The `info_omit!($ops)` macro of `src/lib.rs`:
`omit!(info!($ops))` — log, then drop the unit-error result. -/
def infoOmit {α : Type} (r : Result α) (file : String) (line column : Nat) :
    Unit × List String :=
  match info r file line column with
  | (v, out) => ((omitOp v).1, out ++ (omitOp v).2)

/-- The failure path of the `pnk!($ops)` macro of `src/lib.rs`:
`$ops.c($crate::d!()).unwrap_or_else(|e| e.print_die())` — the result is
wrapped with one default-placeholder context node, then on failure the
chain is printed and the process panics.  The value is the chain report
printed before dying, or `none` when the result is a success (no print). -/
def pnkPrinted {α : Type} (r : Result α) (file : String) (line column : Nat) :
    Option (List String) :=
  match Result.c r (dDefault file line column) with
  | Except.ok _ => none
  | Except.error e => some e.printLines

/-- The error chain that `pnk!` renders on failure: the argument's chain
extended with `pnk!`'s own default-placeholder context node. -/
def pnkChain {α : Type} (r : Result α) (file : String) (line column : Nat) :
    Option RucError :=
  match Result.c r (dDefault file line column) with
  | Except.ok _ => none
  | Except.error e => some e

/-- The `ts!` macro of `src/lib.rs`:
`SystemTime::now().duration_since(UNIX_EPOCH).unwrap_or_default().as_secs()`.
The host clock's answer is the explicit argument: `ok s` is a duration of
`s` whole seconds since the epoch, `error ()` is the `SystemTimeError` case
(current time before the epoch), for which `unwrap_or_default()` yields the
zero duration, whose `as_secs()` is `0`. -/
def ts (clock : Except Unit Nat) : Nat :=
  match clock with
  | Except.ok s => s
  | Except.error _ => 0

/-- One `m.insert(k, v)` step of the `map!` macro of `src/lib.rs`, on the
association-list model of `HashMap` / `BTreeMap`: if the key is present its
value is replaced, otherwise the pair is added. -/
def mapInsert {K V : Type} [DecidableEq K] :
    List (K × V) → K → V → List (K × V)
  | [], k, v => [(k, v)]
  | p :: t, k, v =>
    if p.1 = k then (p.1, v) :: t else p :: mapInsert t k v

/-- Map lookup on the association-list model. -/
def mapGet {K V : Type} [DecidableEq K] (m : List (K × V)) (k : K) :
    Option V :=
  (m.find? (fun p => decide (p.1 = k))).map Prod.snd

/-- The `map!` non-empty macro arm of `src/lib.rs`: start from an empty map
and run `m.insert($k, $v)` once per listed pair, in order.  The `B` arm
(`BTreeMap`) performs the same inserts; lookup and size do not depend on
the container's ordering, so one model covers both. -/
def mapOf {K V : Type} [DecidableEq K] (l : List (K × V)) : List (K × V) :=
  l.foldl (fun m p => mapInsert m p.1 p.2) []

/-- The value of the last occurrence of a key in a literal pair list. -/
def lastVal {K V : Type} [DecidableEq K] (l : List (K × V)) (k : K) :
    Option V :=
  ((l.filter (fun p => decide (p.1 = k))).map Prod.snd).getLast?

/-- Wrapping a failing chain with successive context nodes, in attachment
order: each step is one `RucError.wrap`, the new node becoming the head. -/
def wrapChain (root : RucError) (ctxs : List SimpleMsg) : RucError :=
  ctxs.foldl (fun e m => RucError.wrap m e) root

/-- Wrapping a result with successive context nodes via the combinator,
in attachment order: `ctxs.foldl Result.c r`. -/
def wrapResult {α : Type} (r : Result α) (ctxs : List SimpleMsg) :
    Result α :=
  ctxs.foldl Result.c r

/-- The `CustomErr(-1)` payload of the end-to-end example in `src/lib.rs`:
`#[derive(Debug)] struct CustomErr(i32)` at value `CustomErr(-1)`, with its
compact `{:?}` and pretty `{:#?}` debug renderings. -/
def customErr : Payload :=
  ⟨"CustomErr(-1)", "CustomErr(\n    -1,\n)"⟩

/-- Layer 1 of the `will_panic` example in `src/lib.rs`:
`Err(eg!("The final error message!"))`. -/
def willPanicL1 : Result Unit :=
  Except.error (eg "The final error message!" "src/lib.rs" 15 38)

/-- Layer 2: `l1().c(d!())`. -/
def willPanicL2 : Result Unit :=
  Result.c willPanicL1 (dDefault "src/lib.rs" 16 39)

/-- Layer 3: `l2().c(d!("A custom message!"))`. -/
def willPanicL3 : Result Unit :=
  Result.c willPanicL2 (d "A custom message!" "src/lib.rs" 17 39)

/-- Layer 4: `l3().c(d!("ERR_UNKNOWN"))`. -/
def willPanicL4 : Result Unit :=
  Result.c willPanicL3 (d "ERR_UNKNOWN" "src/lib.rs" 18 39)

/-- Layer 5: `l4().c(d!(@CustomErr(-1)))`. -/
def willPanicL5 : Result Unit :=
  Result.c willPanicL4 (dPayload customErr "src/lib.rs" 19 39)

/-- The chain rendered by `pnk!(l5())` in the `will_panic` example:
`pnk!` wraps `l5()` with one more default-placeholder context node and
prints the resulting chain before panicking. -/
def willPanicChain : Option RucError :=
  pnkChain willPanicL5 "src/lib.rs" 21 5

/-! Helper lemmas about wrapping and rendering. -/

theorem wrapResult_error {α : Type} (e : RucError) (ms : List SimpleMsg) :
    wrapResult (α := α) (Except.error e) ms = Except.error (wrapChain e ms) := by
  induction ms generalizing e with
  | nil => rfl
  | cons m ms ih => simpa [wrapResult, wrapChain, Result.c] using ih (RucError.wrap m e)

theorem renderLines_wrapChain (e : RucError) (ms : List SimpleMsg) :
    (wrapChain e ms).renderLines = ms.reverse.map renderLine ++ e.renderLines := by
  induction ms generalizing e with
  | nil => simp [wrapChain]
  | cons m ms ih =>
    show (wrapChain (RucError.wrap m e) ms).renderLines = _
    rw [ih]
    simp [RucError.renderLines]

/-- C1: counterexample.  In the end-to-end `will_panic` scenario the report
rendered by `pnk!` does have 6 lines, but its first line's message is the
default placeholder of the context node `pnk!` itself attaches, not the
debug-rendered payload, which contradicts the claim as stated. -/
theorem willPanic_first_line_not_payload :
    willPanicChain.map (fun e => e.renderLines.length) = some 6
    ∧ willPanicChain.map (fun e => e.messages.head?) = some (some "...")
    ∧ "..." ≠ customErr.debugCompact :=
  ⟨rfl, rfl, by decide⟩

/-- C1 (amended): in the end-to-end `will_panic` scenario the rendered
report has exactly 6 lines; the first line's message is the default
placeholder attached by `pnk!` itself, the second line's message is the
debug-rendered payload, and the last line's message is
"The final error message!". -/
theorem willPanic_report :
    willPanicChain.map RucError.messages =
      some ["...", "CustomErr(-1)", "ERR_UNKNOWN", "A custom message!", "...",
        "The final error message!"]
    ∧ willPanicChain.map (fun e => e.renderLines.length) = some 6 :=
  ⟨rfl, rfl⟩

/-- C2: wrapping an originating error with N successive context nodes via
the combinator yields a failure whose chain renders to exactly N+1 lines,
one line per node, outermost (most recently attached) context first down to
the root, each line the node's own location-and-message rendering. -/
theorem render_chain_lines (m0 f : String) (li co : Nat) (ms : List SimpleMsg) :
    wrapResult (α := Unit) (Except.error (eg m0 f li co)) ms
      = Except.error (wrapChain (eg m0 f li co) ms)
    ∧ (wrapChain (eg m0 f li co) ms).renderLines.length = ms.length + 1
    ∧ (wrapChain (eg m0 f li co) ms).renderLines
      = ms.reverse.map renderLine ++ [renderLine (d m0 f li co)] := by
  refine ⟨wrapResult_error _ _, ?_, ?_⟩
  · rw [renderLines_wrapChain]
    simp [eg, SimpleError.new, RucError.renderLines]
  · rw [renderLines_wrapChain]
    rfl

/-- C2 witness: a concrete 2-wrap chain renders to 3 lines. -/
theorem render_chain_lines_witness :
    (wrapChain (eg "x" "f.rs" 1 2) [d "a" "f.rs" 3 4, d "b" "f.rs" 5 6]).renderLines.length
      = 2 + 1 :=
  (render_chain_lines "x" "f.rs" 1 2 [d "a" "f.rs" 3 4, d "b" "f.rs" 5 6]).2.1

/-- C3: on a failing result the combinator returns a failure whose error is
the new node with the old chain installed as its cause, the new node's own
message record untouched; and an originating error built by `eg!` has no
cause. -/
theorem c_error_installs_cause (α : Type) (e : RucError) (m : SimpleMsg)
    (s f : String) (li co : Nat) :
    Result.c (α := α) (Except.error e) m = Except.error (RucError.wrap m e)
    ∧ (RucError.wrap m e).cause = some e
    ∧ (RucError.wrap m e).msg = m
    ∧ (eg s f li co).cause = none :=
  ⟨rfl, rfl, rfl, rfl⟩

/-- C3 witness: concrete instance of the combinator installing the cause. -/
theorem c_error_installs_cause_witness :
    Result.c (α := Unit) (Except.error (eg "root" "f.rs" 1 1)) (d "ctx" "g.rs" 2 2)
      = Except.error (RucError.wrap (d "ctx" "g.rs" 2 2) (eg "root" "f.rs" 1 1)) :=
  (c_error_installs_cause Unit (eg "root" "f.rs" 1 1) (d "ctx" "g.rs" 2 2) "z" "h.rs" 3 3).1

/-- C4: on a success value the combinator is the identity. -/
theorem c_ok_id (α : Type) (v : α) (m : SimpleMsg) :
    Result.c (Except.ok v) m = Except.ok v :=
  rfl

/-- C4 witness: concrete success value passing through unchanged. -/
theorem c_ok_id_witness :
    Result.c (Except.ok 7) (d "m" "f.rs" 1 1) = Except.ok 7 :=
  c_ok_id Nat 7 (d "m" "f.rs" 1 1)

/-- C5: counterexample.  At a concrete failing result, `info!` yields
`Err(())` — still a failure, not success-shaped unit — and the report it
writes is that of the chain extended with `info!`'s own default context
node, not the report of the chain that was passed in. -/
theorem info_error_not_success :
    (info (α := Unit) (Except.error (eg "boom" "a.rs" 1 1)) "b.rs" 2 2).1
      = Except.error ()
    ∧ (Except.error () : Except Unit Unit) ≠ Except.ok ()
    ∧ (info (α := Unit) (Except.error (eg "boom" "a.rs" 1 1)) "b.rs" 2 2).2
      ≠ (eg "boom" "a.rs" 1 1).renderLines := by
  refine ⟨rfl, fun h => Except.noConfusion h, ?_⟩
  decide

/-- C5 (amended): on a failing result `info!` writes exactly one full chain
report — the report of the chain extended with `info!`'s own
default-placeholder context node — and returns a failure carrying unit in
place of the error; on a success it writes nothing and passes the value
through. -/
theorem info_spec (α : Type) (e : RucError) (v : α) (f : String) (li co : Nat) :
    info (α := α) (Except.error e) f li co
      = (Except.error (), (RucError.wrap (dDefault f li co) e).renderLines)
    ∧ info (Except.ok v) f li co = (Except.ok v, []) :=
  ⟨rfl, rfl⟩

/-- C5 witness: concrete instances of both branches of `info!`. -/
theorem info_spec_witness :
    info (α := Unit) (Except.error (eg "x" "f.rs" 1 1)) "g.rs" 2 2
      = (Except.error (),
          (RucError.wrap (dDefault "g.rs" 2 2) (eg "x" "f.rs" 1 1)).renderLines)
    ∧ info (Except.ok (5 : Nat)) "g.rs" 2 2 = (Except.ok 5, []) :=
  ⟨(info_spec Unit (eg "x" "f.rs" 1 1) () "g.rs" 2 2).1,
    (info_spec Nat (eg "x" "f.rs" 1 1) 5 "g.rs" 2 2).2⟩

/-- C6: the current-time reader `ts!` is a total function of the host
clock's answer — it returns the clock's whole-second value on success and
zero when the clock errors (current time before the UNIX epoch). -/
theorem ts_spec (r : Except Unit Nat) :
    (∀ s, r = Except.ok s → ts r = s) ∧ (∀ u, r = Except.error u → ts r = 0) := by
  constructor
  · rintro s rfl
    rfl
  · rintro u rfl
    rfl

/-- C6 witness: concrete clock answers. -/
theorem ts_spec_witness : ts (Except.error ()) = 0 ∧ ts (Except.ok 5) = 5 :=
  ⟨(ts_spec (Except.error ())).2 () rfl, (ts_spec (Except.ok 5)).1 5 rfl⟩

/-- C7: `omit!` drops any result, success or failure, writing nothing to
the diagnostic stream and performing no rendering. -/
theorem omit_silent (α ε : Type) (r : Except ε α) :
    omitOp r = ((), []) := by
  cases r <;> rfl

/-- C7 witness: concrete failing result dropped silently. -/
theorem omit_silent_witness :
    omitOp (Except.error (eg "x" "f.rs" 1 1) : Result Unit) = ((), []) :=
  omit_silent Unit RucError (Except.error (eg "x" "f.rs" 1 1))

/-- C10: `eg!(@v)` renders the payload with the pretty multi-line debug
form as the originating message, `d!(@v)` renders it with the compact
single-line debug form as the context-node message, so the two messages
differ whenever the two debug forms do. -/
theorem payload_debug_forms (p : Payload) (f : String) (li co : Nat) :
    (egPayload p f li co).message = p.debugPretty
    ∧ (dPayload p f li co).err = p.debugCompact
    ∧ (p.debugPretty ≠ p.debugCompact →
        (egPayload p f li co).message ≠ (dPayload p f li co).err) :=
  ⟨rfl, rfl, fun h => h⟩

/-- C10 witness: for the `CustomErr(-1)` payload the two debug forms, and
hence the two captured messages, differ. -/
theorem payload_debug_forms_witness :
    (egPayload customErr "f.rs" 1 1).message ≠ (dPayload customErr "f.rs" 1 1).err :=
  (payload_debug_forms customErr "f.rs" 1 1).2.2 (by decide)

/-! Helper lemmas for the `map!` association-list model. -/

theorem mapGet_cons {K V : Type} [DecidableEq K] (p : K × V) (t : List (K × V)) (q : K) :
    mapGet (p :: t) q = if p.1 = q then some p.2 else mapGet t q := by
  by_cases h : p.1 = q <;> simp [mapGet, List.find?, h]

theorem mapGet_insert {K V : Type} [DecidableEq K] (m : List (K × V)) (k q : K) (v : V) :
    mapGet (mapInsert m k v) q = if q = k then some v else mapGet m q := by
  induction m with
  | nil =>
    show mapGet [(k, v)] q = _
    rw [mapGet_cons]
    by_cases h : q = k
    · subst h
      simp
    · have h2 : ¬k = q := fun hh => h hh.symm
      simp [h, h2]
  | cons p t ih =>
    by_cases hpk : p.1 = k
    · rw [show mapInsert (p :: t) k v = (p.1, v) :: t from by simp [mapInsert, hpk]]
      rw [mapGet_cons, mapGet_cons]
      by_cases hpq : p.1 = q
      · have hqk : q = k := hpq.symm.trans hpk
        simp [hpq, hqk]
      · have hqk : ¬q = k := fun hh => hpq (hpk.trans hh.symm)
        simp [hpq, hqk]
    · rw [show mapInsert (p :: t) k v = p :: mapInsert t k v from by simp [mapInsert, hpk]]
      rw [mapGet_cons, mapGet_cons, ih]
      by_cases hpq : p.1 = q
      · have hqk : ¬q = k := fun hh => hpk (hpq.trans hh)
        simp [hpq, hqk]
      · simp [hpq]

theorem mapInsert_length {K V : Type} [DecidableEq K] (m : List (K × V)) (k : K) (v : V) :
    (mapInsert m k v).length
      = if k ∈ m.map Prod.fst then m.length else m.length + 1 := by
  induction m with
  | nil => simp [mapInsert]
  | cons p t ih =>
    by_cases hpk : p.1 = k
    · simp [mapInsert, hpk]
    · have hkp : ¬k = p.1 := fun hh => hpk hh.symm
      by_cases hk : k ∈ t.map Prod.fst
      · simp [mapInsert, hpk, hkp, hk, ih]
      · simp [mapInsert, hpk, hkp, hk, ih]

theorem mapGet_eq_none {K V : Type} [DecidableEq K] (m : List (K × V)) (k : K) :
    mapGet m k = none ↔ k ∉ m.map Prod.fst := by
  induction m with
  | nil => simp [mapGet]
  | cons p t ih =>
    rw [mapGet_cons]
    by_cases hpk : p.1 = k
    · simp [hpk]
    · have hkp : ¬k = p.1 := fun hh => hpk hh.symm
      rw [if_neg hpk, ih]
      simp [hkp]

theorem mapInsert_keysList {K V : Type} [DecidableEq K] (m : List (K × V)) (k : K) (v : V) :
    (mapInsert m k v).map Prod.fst
      = if k ∈ m.map Prod.fst then m.map Prod.fst else m.map Prod.fst ++ [k] := by
  induction m with
  | nil => simp [mapInsert]
  | cons p t ih =>
    by_cases hpk : p.1 = k
    · simp [mapInsert, hpk]
    · have hkp : ¬k = p.1 := fun hh => hpk hh.symm
      by_cases hk : k ∈ t.map Prod.fst
      · simp [mapInsert, hpk, hkp, hk, ih]
      · simp [mapInsert, hpk, hkp, hk, ih]

theorem mapOf_concat {K V : Type} [DecidableEq K] (l : List (K × V)) (p : K × V) :
    mapOf (l ++ [p]) = mapInsert (mapOf l) p.1 p.2 := by
  simp [mapOf, List.foldl_append]

theorem mapOf_keys {K V : Type} [DecidableEq K] (l : List (K × V)) (k : K) :
    k ∈ (mapOf l).map Prod.fst ↔ k ∈ l.map Prod.fst := by
  induction l using List.reverseRecOn generalizing k with
  | nil => simp [mapOf]
  | append_singleton l p ih =>
    rw [mapOf_concat, mapInsert_keysList]
    by_cases h : p.1 ∈ (mapOf l).map Prod.fst
    · have hp : p.1 ∈ l.map Prod.fst := (ih p.1).mp h
      rw [if_pos h, ih k]
      simp only [List.map_append, List.mem_append, List.map_cons, List.map_nil,
        List.mem_singleton]
      constructor
      · exact fun hh => Or.inl hh
      · rintro (hh | hh)
        · exact hh
        · exact hh.symm ▸ hp
    · rw [if_neg h]
      simp only [List.mem_append, List.map_append, List.map_cons, List.map_nil,
        List.mem_singleton, ih k]

theorem lastVal_concat {K V : Type} [DecidableEq K] (l : List (K × V)) (p : K × V) (k : K) :
    lastVal (l ++ [p]) k = if k = p.1 then some p.2 else lastVal l k := by
  by_cases h : k = p.1
  · have hp : p.1 = k := h.symm
    have hf : List.filter (fun x => decide (x.1 = k)) [p] = [p] := by
      simp [hp]
    rw [lastVal, List.filter_append, hf, List.map_append, if_pos h]
    simp [lastVal]
  · have hp : ¬p.1 = k := fun hh => h hh.symm
    have hf : List.filter (fun x => decide (x.1 = k)) [p] = [] := by
      simp [hp]
    rw [lastVal, List.filter_append, hf, List.append_nil, if_neg h]
    rfl

theorem mapGet_mapOf {K V : Type} [DecidableEq K] (l : List (K × V)) (k : K) :
    mapGet (mapOf l) k = lastVal l k := by
  induction l using List.reverseRecOn with
  | nil => rfl
  | append_singleton l p ih =>
    rw [mapOf_concat, mapGet_insert, lastVal_concat, ih]

theorem mapOf_length {K V : Type} [DecidableEq K] (l : List (K × V)) :
    (mapOf l).length = (l.map Prod.fst).toFinset.card := by
  induction l using List.reverseRecOn with
  | nil => rfl
  | append_singleton l p ih =>
    rw [mapOf_concat, mapInsert_length, ih]
    have hkeys : p.1 ∈ (mapOf l).map Prod.fst ↔ p.1 ∈ l.map Prod.fst :=
      mapOf_keys l p.1
    have htf : ((l ++ [p]).map Prod.fst).toFinset
        = insert p.1 (l.map Prod.fst).toFinset := by
      ext x
      simp [or_comm]
    rw [htf]
    by_cases h : p.1 ∈ l.map Prod.fst
    · rw [if_pos (hkeys.mpr h), Finset.insert_eq_self.mpr (List.mem_toFinset.mpr h)]
    · rw [if_neg (fun hh => h (hkeys.mp hh)),
        Finset.card_insert_of_not_mem (fun hh => h (List.mem_toFinset.mp hh))]

/-- C9: the map built by the `map!` macro sends every key to the value of
that key's last occurrence in the literal pair list, contains no other
keys, and its size is the number of distinct listed keys — duplicate keys
collapse rather than error. -/
theorem mapOf_spec (K V : Type) [DecidableEq K] (l : List (K × V)) (k : K) :
    mapGet (mapOf l) k = lastVal l k
    ∧ (mapGet (mapOf l) k = none ↔ k ∉ l.map Prod.fst)
    ∧ (mapOf l).length = (l.map Prod.fst).toFinset.card :=
  ⟨mapGet_mapOf l k, (mapGet_eq_none (mapOf l) k).trans (not_congr (mapOf_keys l k)),
    mapOf_length l⟩

/-- C9 witness: a concrete literal list with a duplicated key. -/
theorem mapOf_spec_witness :
    mapGet (mapOf [(1, 2), (2, 4), (1, 7)]) 1 = lastVal [(1, 2), (2, 4), (1, 7)] 1
    ∧ (mapOf [(1, 2), (2, 4), (1, 7)]).length
      = ([(1, 2), (2, 4), (1, 7)].map (Prod.fst (α := Nat) (β := Nat))).toFinset.card :=
  ⟨(mapOf_spec Nat Nat [(1, 2), (2, 4), (1, 7)] 1).1,
    (mapOf_spec Nat Nat [(1, 2), (2, 4), (1, 7)] 1).2.2⟩

end RUC
